import Mathlib

/-!
Verification of the mentor-track-forge task/points core.

The definitions below are a shallow embedding of:
  * the `profiles` and `tasks` tables and their row-level policies
    (supabase/migrations/20250918162251_….sql),
  * the `calculate_user_points` trigger function and its `update_user_points`
    trigger wiring (same migration, lines 169-206),
  * the intern dashboard's `updateTaskStatus` and the employee dashboard's
    `createTask` client operations (unnamed/part_002),
  * the file-upload validation pipeline `uploadFiles` (unnamed/part_000).

SQL integers are embedded as `Int`; `NULL`-able references as `Option`;
timestamps as `Nat`; `text` columns as `String`. The `profiles.points`
column is viewed as a map `UserId → Int` (user_id is `UNIQUE`, so the SQL
`UPDATE … WHERE user_id = NEW.assignee_id` touches exactly the matching
entry of the map).
-/

namespace MentorTrack

/-- `profiles.role`: `CHECK (role IN ('intern', 'employee', 'admin'))`. -/
inductive Role where
  | intern
  | employee
  | admin
  deriving DecidableEq, Repr

/-- `tasks.status`:
`CHECK (status IN ('pending', 'in_progress', 'completed', 'overdue'))`. -/
inductive TaskStatus where
  | pending
  | in_progress
  | completed
  | overdue
  deriving DecidableEq, Repr

/-- `tasks.priority`: `CHECK (priority IN ('low', 'medium', 'high'))`. -/
inductive Priority where
  | low
  | medium
  | high
  deriving DecidableEq, Repr

/-- `profiles.user_id` / `auth.uid()` values. -/
abbrev UserId := Nat

/-- One row of `public.profiles` (the columns the core logic reads). -/
structure Profile where
  user_id : UserId
  role : Role
  points : Int
  deriving DecidableEq, Repr

/-- One row of `public.tasks` (the columns the core logic reads/writes). -/
structure Task where
  id : Nat
  title : String
  status : TaskStatus
  priority : Priority
  points : Int
  assignee_id : Option UserId
  created_by : Option UserId
  completed_at : Option Nat
  deriving DecidableEq, Repr

/-- The trigger function `public.calculate_user_points` (migration lines
169-200), evaluated pointwise on the `profiles.points` map. `OLD`/`NEW` are
the task row before/after the update; the function reads `NEW.status`,
`OLD.status`, `NEW.points` and `NEW.assignee_id`. The first SQL `UPDATE`
adds `points_to_add` to the assignee's row; the second sets the assignee's
row to `GREATEST(0, points - points_to_subtract)`. A `NULL` assignee
matches no row (`user_id = NULL` is never true), embedded by comparing
`newAssignee` with `some u`. -/
def calculate_user_points (oldStatus newStatus : TaskStatus) (newPoints : Int)
    (newAssignee : Option UserId) (profiles : UserId → Int) : UserId → Int :=
  fun u =>
    let points_to_add : Int :=
      if newStatus = TaskStatus.completed ∧ oldStatus ≠ TaskStatus.completed then
        newPoints
      else 0
    let points_to_subtract : Int :=
      if newStatus = TaskStatus.overdue ∧ oldStatus ≠ TaskStatus.overdue then
        5
      else 0
    let afterAdd : Int :=
      if 0 < points_to_add ∧ newAssignee = some u then
        profiles u + points_to_add
      else profiles u
    if 0 < points_to_subtract ∧ newAssignee = some u then
      max 0 (afterAdd - points_to_subtract)
    else afterAdd

/-- Effect of the `update_user_points` trigger (`AFTER UPDATE ON public.tasks
FOR EACH ROW`, migration lines 203-206) on the points map, for one task row
updated from `old` to `new`. -/
def applyTaskUpdate (old new : Task) (profiles : UserId → Int) : UserId → Int :=
  calculate_user_points old.status new.status new.points new.assignee_id profiles

/-- `updateTaskStatus` from the intern dashboard (unnamed/part_002, lines
518-528): `update({ status, completed_at: status === 'completed' ?
new Date().toISOString() : null })` on the task row, which then fires the
`update_user_points` trigger. Returns the updated row and the resulting
points map. -/
def updateTaskStatus (row : Task) (s : TaskStatus) (now : Nat)
    (profiles : UserId → Int) : Task × (UserId → Int) :=
  let newRow : Task :=
    { row with
      status := s
      completed_at := if s = TaskStatus.completed then some now else none }
  (newRow, applyTaskUpdate row newRow profiles)

/-- Row policy "Employees and admins can update tasks" (migration lines
121-124): `USING (EXISTS (SELECT 1 FROM public.profiles WHERE user_id =
auth.uid() AND role IN ('admin', 'employee')))`, evaluated with the acting
user's profile in hand. The predicate does not mention the task row. -/
def canUpdateTask (actor : Profile) : Bool :=
  actor.role = Role.admin || actor.role = Role.employee

/-- Row policy "Employees and admins can create tasks" (migration lines
116-119): `WITH CHECK (EXISTS (SELECT 1 FROM public.profiles WHERE user_id =
auth.uid() AND role IN ('admin', 'employee')))`. -/
def canCreateTask (actor : Profile) : Bool :=
  actor.role = Role.admin || actor.role = Role.employee

/-- Postgres error kinds surfaced by the client for this core. -/
inductive DbError where
  | Forbidden
  deriving DecidableEq, Repr

/-- An `INSERT` into `public.tasks` under row-level security: rows failing
the `WITH CHECK` of "Employees and admins can create tasks" raise a
row-level-security violation, which the client surfaces as an error
(`createTask` in unnamed/part_002, lines 109-156, throws it). -/
def createTask (actor : Profile) (values : Task) : Except DbError Task :=
  if canCreateTask actor then Except.ok values else Except.error DbError.Forbidden

/-- An `UPDATE` of one `public.tasks` row under row-level security: a row
failing the `USING` clause of "Employees and admins can update tasks" is
invisible to the update, so the statement matches zero rows — the row and
the points map are unchanged and no error is raised. When the policy
admits the actor, the update is `updateTaskStatus`. -/
def rlsUpdateTaskStatus (actor : Profile) (row : Task) (s : TaskStatus)
    (now : Nat) (profiles : UserId → Int) : Task × (UserId → Int) :=
  if canUpdateTask actor then updateTaskStatus row s now profiles
  else (row, profiles)

/-- Text handled character by character (JS strings in the upload check). -/
abbrev Chars := List Char

/-- `allowedTypes` from `uploadFiles` (unnamed/part_000, line 50). -/
def allowedTypes : List Chars :=
  ["image/*".data, "application/pdf".data, "text/*".data, ".doc".data,
   ".docx".data]

/-- JS `pattern.replace('*', '')`: the first occurrence of `*` is removed
(every pattern in `allowedTypes` holds at most one `*`). -/
def replaceFirstStar : Chars → Chars
  | [] => []
  | c :: rest => if c = '*' then rest else c :: replaceFirstStar rest

/-- One step of the `allowedTypes.some(...)` check (unnamed/part_000, lines
51-55): a pattern containing `*` is matched as a prefix of the file's MIME
type with the `*` removed (`file.type.startsWith(type.replace('*', ''))`);
any other pattern is matched as a suffix of the file's NAME
(`file.name.endsWith(type)`). -/
def typeMatches (mimeType fileName pattern : Chars) : Bool :=
  if pattern.contains '*' then
    (replaceFirstStar pattern).isPrefixOf mimeType
  else
    pattern.isSuffixOf fileName

/-- `isAllowed` from `uploadFiles` (unnamed/part_000, lines 51-55). -/
def isAllowed (mimeType fileName : Chars) : Bool :=
  allowedTypes.any (typeMatches mimeType fileName)

/-- Observable outcome of uploading one file. -/
structure UploadOutcome where
  error : Option String
  blobWritten : Bool
  metadataInserted : Bool
  deriving DecidableEq, Repr

/-- The per-file body of `uploadFiles` (unnamed/part_000, lines 42-97):
size check (`file.size > 5 * 1024 * 1024` throws), then the allow-list
check, then the storage upload (`supabase.storage.from('files').upload`),
then the `file_uploads` metadata insert; any thrown error stops the
pipeline. `storageOk`/`dbOk` stand for the success of the two external
writes. -/
def uploadOneFile (fileSize : Nat) (mimeType fileName : Chars)
    (storageOk dbOk : Bool) : UploadOutcome :=
  if 5 * 1024 * 1024 < fileSize then
    { error := some "File size must be less than 5MB"
      blobWritten := false
      metadataInserted := false }
  else if ¬ isAllowed mimeType fileName then
    { error := some "File type not allowed. Please upload images, PDFs, or documents."
      blobWritten := false
      metadataInserted := false }
  else if ¬ storageOk then
    { error := some "storage upload failed"
      blobWritten := false
      metadataInserted := false }
  else if ¬ dbOk then
    { error := some "file_uploads insert failed"
      blobWritten := true
      metadataInserted := false }
  else
    { error := none
      blobWritten := true
      metadataInserted := true }

/-- The database state the task/points core touches. -/
structure DBState where
  tasks : List Task
  points : UserId → Int

/-- An `INSERT` into `public.tasks`: the row is stored. The migration wires
`update_user_points` as `AFTER UPDATE ON public.tasks` only (lines
203-206), so no points trigger fires on insertion. -/
def insertTask (s : DBState) (t : Task) : DBState :=
  { tasks := t :: s.tasks, points := s.points }

/-- An `UPDATE` of the task row with id `tid` by `f`, firing the
`update_user_points` trigger for each updated row. -/
def updateTaskById (s : DBState) (tid : Nat) (f : Task → Task) : DBState :=
  { tasks := s.tasks.map fun r => if r.id = tid then f r else r
    points := s.tasks.foldl
      (fun p r => if r.id = tid then applyTaskUpdate r (f r) p else p)
      s.points }

/-- A sequence of task-row status updates (each given as the row before and
after), threaded through the points trigger. -/
def applyOps : List (Task × Task) → (UserId → Int) → UserId → Int
  | [], p => p
  | (o, n) :: rest, p => applyOps rest (applyTaskUpdate o n p)

/-! Concrete rows used to instantiate the theorems below. -/

/-- A profile with role `intern` (the `profiles` default role). -/
def internActor : Profile :=
  { user_id := 1, role := Role.intern, points := 0 }

/-- A profile with role `employee`. -/
def employeeActor : Profile :=
  { user_id := 2, role := Role.employee, points := 0 }

/-- A pending task assigned to user 1, created by user 2. -/
def taskPendingA : Task :=
  { id := 10
    title := "write report"
    status := TaskStatus.pending
    priority := Priority.medium
    points := 10
    assignee_id := some 1
    created_by := some 2
    completed_at := none }

/-- `taskPendingA` after a transition to `completed`. -/
def taskCompletedA : Task :=
  { taskPendingA with status := TaskStatus.completed, completed_at := some 100 }

/-- `taskPendingA` after a transition to `overdue`. -/
def taskOverdueA : Task :=
  { taskPendingA with status := TaskStatus.overdue }

/-- A transition into `completed` from a non-completed status credits the
assignee's profile row with the task's (non-negative) points value. -/
theorem calc_credit (oldS : TaskStatus) (pts : Int) (a : UserId)
    (p : UserId → Int) (h1 : oldS ≠ TaskStatus.completed) (hp : 0 ≤ pts) :
    calculate_user_points oldS TaskStatus.completed pts (some a) p a
      = p a + pts := by
  simp only [calculate_user_points]
  split_ifs <;> (simp_all; try omega)

/-- A transition into `overdue` from a non-overdue status sets the
assignee's profile row to `GREATEST(0, points - 5)`. -/
theorem calc_debit (oldS : TaskStatus) (pts : Int) (a : UserId)
    (p : UserId → Int) (h1 : oldS ≠ TaskStatus.overdue) :
    calculate_user_points oldS TaskStatus.overdue pts (some a) p a
      = max 0 (p a - 5) := by
  simp only [calculate_user_points]
  split_ifs <;> simp_all

/-- The trigger never touches a profile row other than the assignee's. -/
theorem calc_other (oldS newS : TaskStatus) (pts : Int) (asg : Option UserId)
    (p : UserId → Int) (b : UserId) (hb : asg ≠ some b) :
    calculate_user_points oldS newS pts asg p b = p b := by
  simp only [calculate_user_points]
  split_ifs <;> simp_all

/-- Re-saving a row with its stored status leaves every profile row
unchanged (both edge conditions of the trigger are false). -/
theorem calc_same (oldS newS : TaskStatus) (pts : Int) (asg : Option UserId)
    (p : UserId → Int) (u : UserId) (h : newS = oldS) :
    calculate_user_points oldS newS pts asg p u = p u := by
  subst h
  simp only [calculate_user_points]
  split_ifs <;> simp_all

/-- C1: a status change from a non-completed state to `completed` with a
non-null assignee credits the assignee's balance by exactly the task's
points value (the other balances are untouched), and only once: re-firing
the trigger on the resulting `completed → completed` row leaves the credit
at exactly one task's worth. -/
theorem C1_completion_credits_assignee (old new : Task) (p : UserId → Int)
    (a : UserId) (h1 : old.status ≠ TaskStatus.completed)
    (h2 : new.status = TaskStatus.completed) (h3 : new.assignee_id = some a)
    (h4 : 0 ≤ new.points) :
    applyTaskUpdate old new p a = p a + new.points ∧
    (∀ b, b ≠ a → applyTaskUpdate old new p b = p b) ∧
    applyTaskUpdate new new (applyTaskUpdate old new p) a = p a + new.points := by
  refine ⟨?_, ?_, ?_⟩
  · rw [applyTaskUpdate, h2, h3, calc_credit old.status new.points a p h1 h4]
  · intro b hb
    rw [applyTaskUpdate, h3]
    exact calc_other old.status new.status new.points (some a) p b
      (by simpa using fun hba => hb hba.symm)
  · rw [applyTaskUpdate, calc_same new.status new.status new.points
      new.assignee_id _ a rfl, applyTaskUpdate, h2, h3,
      calc_credit old.status new.points a p h1 h4]

/-- C1 witness: completing `taskPendingA` (points 10, assignee 1) moves the
assignee's balance from 0 to 0 + 10. -/
theorem C1_witness :
    applyTaskUpdate taskPendingA taskCompletedA (fun _ => (0 : Int)) 1 = 0 + 10 :=
  (C1_completion_credits_assignee taskPendingA taskCompletedA (fun _ => (0 : Int)) 1
    (by decide) rfl rfl (by decide)).1

/-- C2: the intern dashboard calls `updateTaskStatus` to move the intern's
own assigned task from `pending` to `in_progress`, but the only `UPDATE`
policy on `public.tasks` ("Employees and admins can update tasks") admits
employee/admin roles and never the assignee, so the intern's update matches
zero rows and the stored status stays `pending`. -/
theorem C2_intern_assignee_update_denied :
    taskPendingA.assignee_id = some internActor.user_id ∧
    internActor.role = Role.intern ∧
    canUpdateTask internActor = false ∧
    (rlsUpdateTaskStatus internActor taskPendingA TaskStatus.in_progress 0
        (fun _ => (0 : Int))).1.status = TaskStatus.pending := by
  decide

/-- One points-trigger firing keeps every balance non-negative. -/
theorem step_nonneg (old new : Task) (p : UserId → Int)
    (h : ∀ u, 0 ≤ p u) : ∀ u, 0 ≤ applyTaskUpdate old new p u := by
  intro u
  have hu := h u
  clear h
  simp only [applyTaskUpdate, calculate_user_points]
  split_ifs <;> (simp_all; try omega)

/-- C3: starting from balances that are all non-negative, any sequence of
task status updates run through the points trigger keeps every profile's
balance non-negative (credits add a positive amount, debits floor at zero
via `GREATEST(0, …)`). -/
theorem C3_points_nonneg (ops : List (Task × Task)) (p : UserId → Int)
    (h : ∀ u, 0 ≤ p u) : ∀ u, 0 ≤ applyOps ops p u := by
  induction ops generalizing p with
  | nil => exact h
  | cons op rest ih =>
      obtain ⟨o, n⟩ := op
      exact ih (applyTaskUpdate o n p) (step_nonneg o n p h)

/-- C3 witness: after completing and then overduing tasks from the all-zero
balances, user 1's balance is still non-negative. -/
theorem C3_witness :
    0 ≤ applyOps [(taskPendingA, taskCompletedA), (taskCompletedA, taskOverdueA)]
        (fun _ => (0 : Int)) 1 :=
  C3_points_nonneg [(taskPendingA, taskCompletedA), (taskCompletedA, taskOverdueA)]
    (fun _ => (0 : Int)) (fun _ => le_refl 0) 1

/-- C4: a status change from a non-overdue state to `overdue` with a
non-null assignee lowers the assignee's balance by exactly
`min 5 previous_balance`, and the resulting balance is never negative. -/
theorem C4_overdue_penalty (old new : Task) (p : UserId → Int) (a : UserId)
    (h1 : old.status ≠ TaskStatus.overdue)
    (h2 : new.status = TaskStatus.overdue)
    (h3 : new.assignee_id = some a) :
    applyTaskUpdate old new p a = p a - min 5 (p a) ∧
    0 ≤ applyTaskUpdate old new p a := by
  have hx : applyTaskUpdate old new p a = max 0 (p a - 5) := by
    rw [applyTaskUpdate, h2, h3, calc_debit old.status new.points a p h1]
  rw [hx]
  omega

/-- C4 witness: a task of assignee 1 with balance 3 going overdue leaves the
balance at 3 - min 5 3 = 0, not -2. -/
theorem C4_witness :
    applyTaskUpdate taskPendingA taskOverdueA (fun _ => (3 : Int)) 1
      = 3 - min 5 3 ∧
    0 ≤ applyTaskUpdate taskPendingA taskOverdueA (fun _ => (3 : Int)) 1 :=
  C4_overdue_penalty taskPendingA taskOverdueA (fun _ => (3 : Int)) 1
    (by decide) rfl rfl

/-- C5: an update that writes the stored status back unchanged fires the
trigger with `OLD.status = NEW.status`, so both edge conditions are false
and no profile's balance moves. -/
theorem C5_same_status_noop (old new : Task) (p : UserId → Int)
    (h : new.status = old.status) :
    ∀ u, applyTaskUpdate old new p u = p u := fun u =>
  calc_same old.status new.status new.points new.assignee_id p u h

/-- C5 witness: re-saving `completed` on an already completed task leaves
the assignee's balance at 10. -/
theorem C5_witness :
    applyTaskUpdate taskCompletedA taskCompletedA (fun _ => (10 : Int)) 1 = 10 :=
  C5_same_status_noop taskCompletedA taskCompletedA (fun _ => (10 : Int)) rfl 1

/-- C6: after `updateTaskStatus` writes a row, that row's `completed_at` is
non-null exactly when its status is `completed` (the client writes
`completed_at: status === 'completed' ? new Date().toISOString() : null`). -/
theorem C6_completed_at_iff_completed (row : Task) (s : TaskStatus)
    (now : Nat) (p : UserId → Int) :
    ((updateTaskStatus row s now p).1.completed_at ≠ none ↔
      (updateTaskStatus row s now p).1.status = TaskStatus.completed) := by
  simp only [updateTaskStatus]
  by_cases hs : s = TaskStatus.completed <;> simp [hs]

/-- C7: the `WITH CHECK` of "Employees and admins can create tasks" rejects
an intern's `INSERT` into `public.tasks` (surfaced as a Forbidden error),
and admits exactly the employee and admin roles. -/
theorem C7_intern_create_forbidden (actor : Profile) (t : Task)
    (h : actor.role = Role.intern) :
    createTask actor t = Except.error DbError.Forbidden ∧
    ∀ b : Profile, canCreateTask b = true ↔
      (b.role = Role.employee ∨ b.role = Role.admin) := by
  constructor
  · simp [createTask, canCreateTask, h]
  · intro b
    cases hb : b.role <;> simp [canCreateTask, hb]

/-- C7 witness: the concrete intern profile cannot create `taskPendingA`. -/
theorem C7_witness :
    internActor.role = Role.intern ∧
    createTask internActor taskPendingA = Except.error DbError.Forbidden :=
  ⟨rfl, (C7_intern_create_forbidden internActor taskPendingA rfl).1⟩

/-- C8: `'application/pdf'` is on the allow-list, but since it contains no
`*` the code matches it as a suffix of the file NAME, so a genuine PDF
(name `report.pdf`, MIME `application/pdf`) matches no pattern and the
upload is rejected with the type error — contradicting the component's own
`accept` list and error text, which name PDFs as accepted. -/
theorem C8_pdf_rejected_by_allowlist :
    "application/pdf".data ∈ allowedTypes ∧
    isAllowed "application/pdf".data "report.pdf".data = false ∧
    uploadOneFile 1024 "application/pdf".data "report.pdf".data true true
      = { error := some "File type not allowed. Please upload images, PDFs, or documents."
          blobWritten := false
          metadataInserted := false } := by
  decide

/-- C9: a file over the 5 MiB ceiling fails the size check, which throws
before the storage upload and before the `file_uploads` insert: no blob is
written and no metadata record is created. -/
theorem C9_oversize_rejected (fileSize : Nat) (mt fn : Chars)
    (storageOk dbOk : Bool) (h : 5 * 1024 * 1024 < fileSize) :
    uploadOneFile fileSize mt fn storageOk dbOk
      = { error := some "File size must be less than 5MB"
          blobWritten := false
          metadataInserted := false } := by
  simp [uploadOneFile, h]

/-- C9 witness: a 6 MiB PNG is rejected with the size error, with no blob
write and no metadata record. -/
theorem C9_witness :
    uploadOneFile (6 * 1024 * 1024) "image/png".data "photo.png".data true true
      = { error := some "File size must be less than 5MB"
          blobWritten := false
          metadataInserted := false } :=
  C9_oversize_rejected (6 * 1024 * 1024) "image/png".data "photo.png".data
    true true (by norm_num)

/-- C10: inserting a task row stores the row and leaves every profile's
balance unchanged — the `update_user_points` trigger is wired
`AFTER UPDATE ON public.tasks` only, so no points effect fires on
insertion, even for a row created with status `completed` and a non-null
assignee. -/
theorem C10_insert_task_points_unchanged (s : DBState) (t : Task)
    (u : UserId) :
    (insertTask s t).points u = s.points u ∧
    (insertTask s t).tasks = t :: s.tasks :=
  ⟨rfl, rfl⟩

end MentorTrack
